import Mathlib

/-! Verification of the calories_bot nutrition accounting engine.

A shallow embedding of the core of `bot/db_storage.py`, `bot/models.py` and
`bot/handlers.py` of the calories_bot repository, together with proofs and
refutations of the frozen specification claims.

Modelling conventions:

* Python `float` values are modelled as `ℚ`.  All concrete inputs used in
  witnesses and counterexamples are chosen away from rounding ties, so the
  difference between binary floats and rationals does not affect any statement.
* A timezone-aware Python `datetime` is modelled as a pair of its wall-clock
  reading (in seconds) and the UTC offset (in seconds) of its `tzinfo`; the
  represented instant is `wall - off`.  Timezones from `AVAILABLE_TIMEZONES`
  are modelled as fixed UTC offsets (the offsets named in the source comments);
  none of the claims involves a DST transition.
* Calendar dates are modelled by their day index (days since the epoch), so
  midnight UTC of date `d` is the instant `d * 86400`.
* The SQL store (`models.py`) is a record of user rows and food-entry rows;
  `DateTime` columns hold the instant of the stored datetime, and SQL
  comparisons compare instants.  `ORDER BY timestamp DESC` is modelled by a
  stable insertion sort.
* Python `int(x)` is truncation towards zero; Python `round(x, 1)` is modelled
  with Mathlib `round` on `10*x` (concrete statements avoid half-way ties where
  Python's bankers rounding could differ).
-/

namespace CaloriesBot

/-- Python `int(x)`: truncation of a float towards zero. -/
def pyInt (x : ℚ) : ℤ :=
  if 0 ≤ x then ⌊x⌋ else ⌈x⌉

/-- Python `round(x, 1)`: round to one decimal place. -/
def round1 (x : ℚ) : ℚ :=
  (round (10 * x) : ℤ) / 10

/-- Python truthiness of an optional number: `None` and `0` are falsy. -/
def pyTruthy : Option ℚ → Bool
  | none => false
  | some x => x ≠ 0

/-- A timezone-aware Python `datetime`: wall-clock seconds together with the
UTC offset (seconds) of its `tzinfo`. -/
structure PyDatetime where
  wall : ℤ
  off : ℤ
deriving DecidableEq, Repr

namespace PyDatetime

/-- The absolute instant (seconds since epoch) an aware datetime denotes. -/
def instant (d : PyDatetime) : ℤ := d.wall - d.off

/-- Python `datetime.astimezone(tz)`: same instant, displayed at offset `off`. -/
def astimezone (d : PyDatetime) (off : ℤ) : PyDatetime :=
  ⟨d.instant + off, off⟩

/-- Adding a `timedelta` of `s` seconds: pytz fixed-offset wall arithmetic. -/
def addSeconds (d : PyDatetime) (s : ℤ) : PyDatetime :=
  ⟨d.wall + s, d.off⟩

@[simp] theorem astimezone_instant (d : PyDatetime) (off : ℤ) :
    (d.astimezone off).instant = d.instant := by
  simp [astimezone, instant]

@[simp] theorem addSeconds_instant (d : PyDatetime) (s : ℤ) :
    (d.addSeconds s).instant = d.instant + s := by
  simp [addSeconds, instant]; ring

end PyDatetime

/-- Instant `datetime(year=D.year, month=D.month, day=D.day, 0,0,0, tzinfo=pytz.UTC)`
for the calendar date of day index `d`. -/
def utcMidnight (d : ℤ) : PyDatetime := ⟨d * 86400, 0⟩

/-- The calendar date (day index) a given instant falls on in the timezone of
offset `off`: the date of the local wall clock. -/
def localDate (off : ℤ) (instant : ℤ) : ℤ :=
  Int.fdiv (instant + off) 86400

/-- Table `AVAILABLE_TIMEZONES` of `db_storage.py`, with each IANA zone modelled by
its fixed UTC offset in seconds (the offset stated in the source comments). -/
def AVAILABLE_TIMEZONES : List (String × ℤ) :=
  [("МСК", 3 * 3600), ("UTC", 0), ("CET", 1 * 3600), ("EET", 2 * 3600),
   ("GMT", 0), ("EKAT", 5 * 3600), ("NOVS", 7 * 3600), ("IRKT", 8 * 3600),
   ("VLAD", 10 * 3600), ("MAGA", 11 * 3600), ("PET", 12 * 3600),
   ("SAMT", 4 * 3600), ("KRAT", 7 * 3600), ("YEKT", 5 * 3600),
   ("OMST", 6 * 3600), ("BAKU", 4 * 3600), ("TBIL", 4 * 3600),
   ("YREV", 4 * 3600), ("MINS", 3 * 3600), ("KYIV", 2 * 3600)]

/-- Property `DBUserData.timezone`: resolve the stored code through
`AVAILABLE_TIMEZONES`, falling back to Europe/Moscow (UTC+3) for unknown
codes. -/
def timezoneOffset (code : String) : ℤ :=
  match (AVAILABLE_TIMEZONES.find? (fun p => p.1 = code)) with
  | some p => p.2
  | none => 3 * 3600

/-- A row of the `food_entries` table (`models.py`, class `FoodEntry`).  The
same record type also stands for the dictionary produced by
`FoodEntry.to_dict` (the dictionary omits `user_id`, which is irrelevant to
every claim). -/
structure FoodEntry where
  id : ℕ
  userId : ℤ
  foodName : String
  calories : ℚ
  protein : ℚ
  fat : ℚ
  carbs : ℚ
  fiber : ℚ
  sugar : ℚ
  sodium : ℚ
  cholesterol : ℚ
  timestamp : ℤ
deriving DecidableEq

/-- A row of the `users` table (`models.py`, class `User`).  The declared
columns are exactly these: there are no `sugar_limit`, `sodium_limit` or
`cholesterol_limit` columns on the mapped model. -/
structure UserRow where
  id : ℤ
  timezoneCode : String
  calorieLimit : Option ℤ
  proteinLimit : Option ℚ
  fatLimit : Option ℚ
  carbsLimit : Option ℚ
  fiberLimit : Option ℚ
  userWeight : Option ℚ
  bodyFatPercentage : Option ℚ
deriving DecidableEq

/-- The relational store: both tables plus the id sequence for food entries. -/
structure Store where
  users : List UserRow
  entries : List FoodEntry
  nextId : ℕ
deriving DecidableEq

/-- The in-memory `DBUserData` object.  `sugarLimit`, `sodiumLimit` and
`cholesterolLimit` model the *dynamic* attributes that `set_macros_limits`
creates on the instance (`__init__` never sets them); `none` covers both an
absent attribute (`hasattr` false) and a `None` value — the two are
indistinguishable to every operation below. -/
structure UserData where
  userId : ℤ
  calorieLimit : Option ℤ
  proteinLimit : Option ℚ
  fatLimit : Option ℚ
  carbsLimit : Option ℚ
  fiberLimit : Option ℚ
  sugarLimit : Option ℚ
  sodiumLimit : Option ℚ
  cholesterolLimit : Option ℚ
  userWeight : Option ℚ
  bodyFatPercentage : Option ℚ
  timezoneCode : String
deriving DecidableEq

/-- The defaults `DBUserData.__init__` assigns before calling
`load_from_db`. -/
def initialUserData (uid : ℤ) : UserData :=
  { userId := uid, calorieLimit := none, proteinLimit := none,
    fatLimit := none, carbsLimit := none, fiberLimit := none,
    sugarLimit := none, sodiumLimit := none, cholesterolLimit := none,
    userWeight := none, bodyFatPercentage := none, timezoneCode := "МСК" }

/-- Method `DBUserData.load_from_db`: read the user's row (populating only the
mapped columns), or create a fresh row when none exists. -/
def load_from_db (uid : ℤ) (store : Store) : UserData × Store :=
  match store.users.find? (fun r => r.id = uid) with
  | some r =>
      ({ userId := uid, calorieLimit := r.calorieLimit,
         proteinLimit := r.proteinLimit, fatLimit := r.fatLimit,
         carbsLimit := r.carbsLimit, fiberLimit := r.fiberLimit,
         sugarLimit := none, sodiumLimit := none, cholesterolLimit := none,
         userWeight := r.userWeight, bodyFatPercentage := r.bodyFatPercentage,
         timezoneCode := r.timezoneCode }, store)
  | none =>
      let row : UserRow :=
        { id := uid, timezoneCode := "МСК", calorieLimit := none,
          proteinLimit := none, fatLimit := none, carbsLimit := none,
          fiberLimit := none, userWeight := none, bodyFatPercentage := none }
      (initialUserData uid, { store with users := store.users ++ [row] })

/-- Combined state of one `DBUserData` object, the store behind it and the
current instant (`datetime.now`). -/
structure SysState where
  user : UserData
  store : Store
  now : ℤ
deriving DecidableEq

/-- The user's resolved timezone offset (the `timezone` property). -/
def SysState.off (s : SysState) : ℤ := timezoneOffset s.user.timezoneCode

/-- Method `DBUserData.get_current_datetime`: `datetime.now(tz)`. -/
def get_current_datetime (s : SysState) : PyDatetime :=
  ⟨s.now + s.off, s.off⟩

/-- Method `DBUserData.get_current_date`: local calendar date of the current
instant. -/
def get_current_date (s : SysState) : ℤ :=
  Int.fdiv (get_current_datetime s).wall 86400

/-- Method `DBUserData.add_food_entry`.  `dbOk` is false when the underlying store
raises `SQLAlchemyError`: in that branch the source rolls back and returns a
hand-built dictionary whose `id` is `0` — it does not re-raise. -/
def add_food_entry (s : SysState) (dbOk : Bool) (foodName : String)
    (calories protein fat carbs fiber sugar sodium cholesterol : ℚ) :
    SysState × FoodEntry :=
  let currentTime := get_current_datetime s
  if dbOk then
    let e : FoodEntry :=
      { id := s.store.nextId, userId := s.user.userId, foodName := foodName,
        calories := calories, protein := protein, fat := fat, carbs := carbs,
        fiber := fiber, sugar := sugar, sodium := sodium,
        cholesterol := cholesterol, timestamp := currentTime.instant }
    let store1 :=
      { s.store with entries := s.store.entries ++ [e],
                     nextId := s.store.nextId + 1 }
    ({ s with store := store1 }, e)
  else
    (s, { id := 0, userId := s.user.userId, foodName := foodName,
          calories := calories, protein := protein, fat := fat, carbs := carbs,
          fiber := fiber, sugar := sugar, sodium := sodium,
          cholesterol := cholesterol, timestamp := currentTime.instant })

/-- Replace the first element satisfying `p` (SQLAlchemy `.first()` followed
by attribute mutation and commit). -/
def updateFirst (p : α → Bool) (f : α → α) : List α → List α
  | [] => []
  | x :: xs => if p x then f x :: xs else x :: updateFirst p f xs

/-- Method `DBUserData.update_food_entry`: backfill micro-nutrients on an existing
entry; `false` when no matching entry exists. -/
def update_food_entry (s : SysState) (entryId : ℕ)
    (fiber sugar sodium cholesterol : Option ℚ) : Bool × SysState :=
  match s.store.entries.find? (fun e => e.id = entryId ∧ e.userId = s.user.userId) with
  | none => (false, s)
  | some _ =>
      let upd : FoodEntry → FoodEntry := fun e =>
        { e with fiber := fiber.getD e.fiber, sugar := sugar.getD e.sugar,
                 sodium := sodium.getD e.sodium,
                 cholesterol := cholesterol.getD e.cholesterol }
      let entries1 :=
        updateFirst (fun e => e.id = entryId ∧ e.userId = s.user.userId) upd
          s.store.entries
      let store1 := { s.store with entries := entries1 }
      (true, { s with store := store1 })

/-- The `fiber` column update of `set_macros_limits`:
`if fiber is not None and fiber > 0: user.fiber_limit = fiber`. -/
def fiberColumnUpdate (fiber : Option ℚ) (old : Option ℚ) : Option ℚ :=
  match fiber with
  | some f => if 0 < f then some f else old
  | none => old

/-- Method `DBUserData.set_macros_limits`.  The in-memory object always records the
passed optional limits (`if fiber is not None: self.fiber_limit = fiber`,
etc.); on the row only the *mapped* columns are written.  The source also
executes `user.sugar_limit = sugar` (and sodium/cholesterol) when positive,
but `User` (models.py) declares no such columns, so SQLAlchemy treats these
as plain transient attributes of the session-local instance and nothing
reaches the table; those assignments therefore have no effect on `Store`. -/
def set_macros_limits (s : SysState) (protein fat carbs : ℚ)
    (fiber sugar sodium cholesterol : Option ℚ) : Bool × SysState :=
  if protein ≤ 0 ∨ fat ≤ 0 ∨ carbs ≤ 0 then (false, s)
  else
    let calories : ℚ := protein * 4 + fat * 9 + carbs * 4
    let u1 :=
      { s.user with proteinLimit := some protein, fatLimit := some fat,
                    carbsLimit := some carbs,
                    fiberLimit := if fiber.isSome then fiber else s.user.fiberLimit,
                    sugarLimit := if sugar.isSome then sugar else s.user.sugarLimit,
                    sodiumLimit := if sodium.isSome then sodium else s.user.sodiumLimit,
                    cholesterolLimit :=
                      if cholesterol.isSome then cholesterol else s.user.cholesterolLimit,
                    calorieLimit := some (pyInt calories) }
    match s.store.users.find? (fun r => r.id = s.user.userId) with
    | some _ =>
        let rowUpd : UserRow → UserRow := fun r =>
          { r with proteinLimit := some protein, fatLimit := some fat,
                   carbsLimit := some carbs, calorieLimit := some (pyInt calories),
                   fiberLimit := fiberColumnUpdate fiber r.fiberLimit }
        let users1 := updateFirst (fun r => r.id = s.user.userId) rowUpd s.store.users
        let store1 := { s.store with users := users1 }
        (true, { s with user := u1, store := store1 })
    | none => (false, { s with user := u1 })

/-- The in-memory assignments `self.user_weight = weight;
self.body_fat_percentage = body_fat`. -/
def bodyUser (u : UserData) (weight bodyFat : ℚ) : UserData :=
  { u with userWeight := some weight, bodyFatPercentage := some bodyFat }

/-- Method `DBUserData.set_user_body_metrics`: validate, derive macro targets from
weight and body-fat percentage (each rounded to one decimal place), call
`set_macros_limits`, then persist weight and body fat. -/
def set_user_body_metrics (s : SysState) (weight bodyFat : ℚ) : Bool × SysState :=
  if weight ≤ 0 ∨ bodyFat < 0 ∨ 100 < bodyFat then (false, s)
  else
    let s1 := { s with user := bodyUser s.user weight bodyFat }
    let leanBodyMass := weight * (1 - bodyFat / 100)
    let protein := round1 (leanBodyMass * 2)
    let fat := round1 (weight * 1)
    let carbs := round1 (weight * 3)
    let fiber := round1 (weight * (3 / 10))
    let sugar := round1 (weight * (1 / 2))
    let sodium := round1 (weight * 20)
    let cholesterol := round1 (weight * 3)
    let s2 := (set_macros_limits s1 protein fat carbs
      (some fiber) (some sugar) (some sodium) (some cholesterol)).2
    match s2.store.users.find? (fun r => r.id = s.user.userId) with
    | some _ =>
        let rowUpd : UserRow → UserRow := fun r =>
          { r with userWeight := some weight, bodyFatPercentage := some bodyFat }
        let users1 := updateFirst (fun r => r.id = s.user.userId) rowUpd s2.store.users
        let store1 := { s2.store with users := users1 }
        (true, { s2 with store := store1 })
    | none => (false, s2)

/-- The query window both `get_stats_by_date` and `get_entries_by_date`
construct for a target date `d`, translated line by line:
`target_start = datetime(d, 00:00, tzinfo=pytz.UTC).astimezone(tz)`,
`target_end = target_start + timedelta(days=1, seconds=-1)`, then both are
converted back to UTC and used as inclusive bounds on the stored
timestamps. -/
def dayWindow (off : ℤ) (d : ℤ) : ℤ × ℤ :=
  let target_start := (utcMidnight d).astimezone off
  let target_end := target_start.addSeconds (86400 - 1)
  (((target_start.astimezone 0).instant), ((target_end.astimezone 0).instant))

/-- The rows the SQL filter of the two date queries selects for user `uid`,
date `d` (in table order). -/
def entriesInWindow (s : SysState) (d : ℤ) : List FoodEntry :=
  let w := dayWindow s.off d
  s.store.entries.filter
    (fun e => e.userId = s.user.userId ∧ w.1 ≤ e.timestamp ∧ e.timestamp ≤ w.2)

/-- Stable insertion step for `ORDER BY timestamp DESC`. -/
def insertByTimestampDesc (e : FoodEntry) : List FoodEntry → List FoodEntry
  | [] => [e]
  | x :: xs =>
      if e.timestamp ≤ x.timestamp then x :: insertByTimestampDesc e xs
      else e :: x :: xs

/-- Clause `ORDER BY timestamp DESC`, modelled as a stable insertion sort. -/
def sortByTimestampDesc (l : List FoodEntry) : List FoodEntry :=
  l.foldr insertByTimestampDesc []

/-- Method `DBUserData.get_entries_by_date`: the filtered rows, newest first. -/
def get_entries_by_date (s : SysState) (d : ℤ) : List FoodEntry :=
  sortByTimestampDesc (entriesInWindow s d)

/-- Method `DBUserData.get_today_entries`. -/
def get_today_entries (s : SysState) : List FoodEntry :=
  get_entries_by_date s (get_current_date s)

/-- Method `DBUserData.delete_entry`: delete the first row matching id and owner. -/
def delete_entry (s : SysState) (entryId : ℕ) : Bool × SysState :=
  match s.store.entries.find? (fun e => e.id = entryId ∧ e.userId = s.user.userId) with
  | some _ =>
      let entries1 :=
        s.store.entries.eraseP (fun e => e.id = entryId ∧ e.userId = s.user.userId)
      let store1 := { s.store with entries := entries1 }
      (true, { s with store := store1 })
  | none => (false, s)

/-- Method `DBUserData.delete_entry_by_index`: resolve a display index against
today's listing, then delete by the id found there. -/
def delete_entry_by_index (s : SysState) (index : ℤ) : Bool × SysState :=
  let currentDate := get_current_date s
  let entries := get_entries_by_date s currentDate
  if h : index < 0 ∨ (entries.length : ℤ) ≤ index then (false, s)
  else delete_entry s (entries.get ⟨index.toNat, by omega⟩).id

/-- Sum of one nutrient field over the selected rows (`func.sum`, with SQL
`NULL` for the empty selection replaced by `0` via `or 0`). -/
def sumBy (f : FoodEntry → ℚ) (l : List FoodEntry) : ℚ :=
  (l.map f).sum

/-- One percentage-of-limit computation of `get_stats_by_date`, before the
final one-decimal rounding: `min(100, (consumed / limit) * 100)` guarded by
`if self.X_limit and self.X_limit > 0` (`none` also covers the sugar, sodium
and cholesterol case where `hasattr` is false). -/
def limitPct (consumed : ℚ) (limit : Option ℚ) : ℚ :=
  match limit with
  | none => 0
  | some l => if l ≠ 0 ∧ 0 < l then min 100 (consumed / l * 100) else 0

/-- The dictionary `get_stats_by_date` returns (minus the `date` display
string, which is pure formatting). -/
structure DailyStats where
  entries : ℕ
  calories : ℚ
  protein : ℚ
  fat : ℚ
  carbs : ℚ
  fiber : ℚ
  sugar : ℚ
  sodium : ℚ
  cholesterol : ℚ
  calorieLimit : Option ℤ
  proteinLimit : Option ℚ
  fatLimit : Option ℚ
  carbsLimit : Option ℚ
  fiberLimit : Option ℚ
  sugarLimit : Option ℚ
  sodiumLimit : Option ℚ
  cholesterolLimit : Option ℚ
  caloriePercentage : ℚ
  proteinPercentage : ℚ
  fatPercentage : ℚ
  carbsPercentage : ℚ
  fiberPercentage : ℚ
  sugarPercentage : ℚ
  sodiumPercentage : ℚ
  cholesterolPercentage : ℚ
deriving DecidableEq

/-- Method `DBUserData.get_stats_by_date`: daily sums, configured limits and
percentage-of-limit per nutrient, all rounded to one decimal place. -/
def get_stats_by_date (s : SysState) (d : ℤ) : DailyStats :=
  let es := entriesInWindow s d
  let calories := sumBy (fun e => e.calories) es
  let protein := sumBy (fun e => e.protein) es
  let fat := sumBy (fun e => e.fat) es
  let carbs := sumBy (fun e => e.carbs) es
  let fiber := sumBy (fun e => e.fiber) es
  let sugar := sumBy (fun e => e.sugar) es
  let sodium := sumBy (fun e => e.sodium) es
  let cholesterol := sumBy (fun e => e.cholesterol) es
  { entries := es.length,
    calories := round1 calories, protein := round1 protein,
    fat := round1 fat, carbs := round1 carbs, fiber := round1 fiber,
    sugar := round1 sugar, sodium := round1 sodium,
    cholesterol := round1 cholesterol,
    calorieLimit := s.user.calorieLimit,
    proteinLimit := s.user.proteinLimit, fatLimit := s.user.fatLimit,
    carbsLimit := s.user.carbsLimit, fiberLimit := s.user.fiberLimit,
    sugarLimit := s.user.sugarLimit, sodiumLimit := s.user.sodiumLimit,
    cholesterolLimit := s.user.cholesterolLimit,
    caloriePercentage :=
      round1 (limitPct calories (s.user.calorieLimit.map (fun n => (n : ℚ)))),
    proteinPercentage := round1 (limitPct protein s.user.proteinLimit),
    fatPercentage := round1 (limitPct fat s.user.fatLimit),
    carbsPercentage := round1 (limitPct carbs s.user.carbsLimit),
    fiberPercentage := round1 (limitPct fiber s.user.fiberLimit),
    sugarPercentage := round1 (limitPct sugar s.user.sugarLimit),
    sodiumPercentage := round1 (limitPct sodium s.user.sodiumLimit),
    cholesterolPercentage := round1 (limitPct cholesterol s.user.cholesterolLimit) }

/-- Method `DBUserData.get_today_stats`. -/
def get_today_stats (s : SysState) : DailyStats :=
  get_stats_by_date s (get_current_date s)

/-- Python string repetition `c * n`, where a non-positive count yields the
empty string. -/
def repChar (c : Char) (n : ℤ) : String :=
  String.mk (List.replicate n.toNat c)

/-- Decimal rendering of the `int(percentage)` suffix of a bar. -/
def intStr (n : ℤ) : String := toString n

/-- The colour band of `generate_calorie_progress_bar`: green below 85,
yellow from 85 below 100, red from 100 up. -/
def calorieBarChar (percentage : ℚ) : Char :=
  if percentage < 85 then '🟩'
  else if percentage < 100 then '🟨'
  else '🟥'

/-- The filled-cell count of `generate_calorie_progress_bar`:
`min(int(percentage / 100 * width), width)`. -/
def calorieFilledChars (percentage : ℚ) (width : ℕ) : ℤ :=
  min (pyInt (percentage / 100 * width)) (width : ℤ)

/-- Method `DBUserData.generate_calorie_progress_bar`. -/
def generate_calorie_progress_bar (percentage : ℚ) (width : ℕ) : String :=
  let filled := calorieFilledChars percentage width
  let empty := (width : ℤ) - filled
  repChar (calorieBarChar percentage) filled ++ repChar '⬜' empty
    ++ " " ++ intStr (pyInt percentage) ++ "%"

/-- The `target is None or target <= 0` test of
`generate_nutrient_progress_bar`. -/
def targetNeedsFallback : Option ℚ → Bool
  | none => true
  | some x => x ≤ 0

/-- The fallback-substitution block of `generate_nutrient_progress_bar`: when
the target is `None` or non-positive, substitute the documented default for
the nutrient type (unknown types keep the original target). -/
def resolveTarget (target : Option ℚ) (nutrientType : String) : Option ℚ :=
  if targetNeedsFallback target then
    if nutrientType = "protein" then some 75
    else if nutrientType = "fat" then some 60
    else if nutrientType = "carbs" then some 250
    else if nutrientType = "fiber" then some 25
    else if nutrientType = "sugar" then some 50
    else if nutrientType = "sodium" then some 2300
    else if nutrientType = "cholesterol" then some 300
    else target
  else target

/-- The per-nutrient fill glyph of `generate_nutrient_progress_bar`. -/
def nutrientBarChar (nutrientType : String) : Char :=
  if nutrientType = "protein" then '🔵'
  else if nutrientType = "fat" then '🟡'
  else if nutrientType = "carbs" then '🟠'
  else if nutrientType = "fiber" then '🟢'
  else if nutrientType = "sugar" then '🟣'
  else if nutrientType = "sodium" then '⚪'
  else if nutrientType = "cholesterol" then '🔴'
  else '⬛'

/-- Line `target_value = float(target) if target else 0`. -/
def nutrientTargetValue (target : Option ℚ) : ℚ :=
  if pyTruthy target then target.getD 0 else 0

/-- Line `percentage = min(100, int(value / target_value * 100)) if target_value > 0
else 0`. -/
def nutrientPercentage (value : ℚ) (targetValue : ℚ) : ℤ :=
  if 0 < targetValue then min 100 (pyInt (value / targetValue * 100)) else 0

/-- Method `DBUserData.generate_nutrient_progress_bar`. -/
def generate_nutrient_progress_bar (value : ℚ) (target : Option ℚ)
    (nutrientType : String) (width : ℕ) : String :=
  let target1 := resolveTarget target nutrientType
  let targetValue := nutrientTargetValue target1
  let percentage := nutrientPercentage value targetValue
  let filled := min (pyInt ((percentage : ℚ) / 100 * width)) (width : ℤ)
  let empty := (width : ℤ) - filled
  repChar (nutrientBarChar nutrientType) filled ++ repChar '⬜' empty
    ++ " " ++ intStr percentage ++ "%"

/-- The FSM states of `CalorieTrackerStates` (handlers.py) relevant to the
confirmation flow. -/
inductive FSMState where
  | waitingForConfirmation
  | waitingForCalorieLimit
deriving DecidableEq

/-- The nutrient-estimate dictionary held in FSM data under the key
`analysis`, with the defaults `process_confirmation` applies via `.get`. -/
structure Analysis where
  foodName : String
  calories : ℚ
  protein : ℚ
  fat : ℚ
  carbs : ℚ
  fiber : ℚ
  sugar : ℚ
  sodium : ℚ
  cholesterol : ℚ
deriving DecidableEq

/-- Per-user aiogram FSM context: current state plus stored data.
`state.clear()` resets both to `none`. -/
structure ConvState where
  fsm : Option FSMState
  analysis : Option Analysis
deriving DecidableEq

/-- Handler `handlers.process_confirmation`: with no pending analysis, report an
error and clear the state (no insert); otherwise append the entry, backfill
micro-nutrients when any is positive (the duplicated `update_food_entry`
block), and clear the state. -/
def process_confirmation (conv : ConvState) (s : SysState) (dbOk : Bool) :
    ConvState × SysState :=
  match conv.analysis with
  | none => (⟨none, none⟩, s)
  | some a =>
      let r := add_food_entry s dbOk a.foodName a.calories a.protein a.fat
        a.carbs a.fiber a.sugar a.sodium a.cholesterol
      let s2 :=
        if 0 < a.fiber ∨ 0 < a.sugar ∨ 0 < a.sodium ∨ 0 < a.cholesterol then
          (update_food_entry r.1 r.2.id
            (some a.fiber) (some a.sugar) (some a.sodium) (some a.cholesterol)).2
        else r.1
      (⟨none, none⟩, s2)

/-- Dispatching a `confirm` button press through the router:
`process_confirmation` is registered with `F.data == "confirm"` *and*
`StateFilter(CalorieTrackerStates.waiting_for_confirmation)`
(handlers.py, `register_handlers`), so outside that FSM state no handler
runs and both conversation and store are untouched. -/
def confirm_event (conv : ConvState) (s : SysState) (dbOk : Bool) :
    ConvState × SysState :=
  if conv.fsm = some FSMState.waitingForConfirmation then
    process_confirmation conv s dbOk
  else (conv, s)

/-- The percentage-of-limit formula exactly as the specification states it:
`min(100, round(sum_X / limit_X * 100, 1))` when the limit is set and
positive, else `0`.  Used as the comparison target for the refinement claim
about `get_stats_by_date`. -/
def specLimitPct (consumed : ℚ) (limit : Option ℚ) : ℚ :=
  match limit with
  | none => 0
  | some l => if 0 < l then min 100 (round1 (consumed / l * 100)) else 0

/-- The in-memory `DBUserData` state after a successful `set_macros_limits`
call (read off the assignment block of the source). -/
def macrosUser (u : UserData) (protein fat carbs : ℚ)
    (fiber sugar sodium cholesterol : Option ℚ) : UserData :=
  { u with proteinLimit := some protein, fatLimit := some fat,
           carbsLimit := some carbs,
           fiberLimit := if fiber.isSome then fiber else u.fiberLimit,
           sugarLimit := if sugar.isSome then sugar else u.sugarLimit,
           sodiumLimit := if sodium.isSome then sodium else u.sodiumLimit,
           cholesterolLimit :=
             if cholesterol.isSome then cholesterol else u.cholesterolLimit,
           calorieLimit := some (pyInt (protein * 4 + fat * 9 + carbs * 4)) }

/-- The row update a successful `set_macros_limits` commits. -/
def macrosRow (protein fat carbs : ℚ) (fiber : Option ℚ) (r : UserRow) : UserRow :=
  { r with proteinLimit := some protein, fatLimit := some fat,
           carbsLimit := some carbs,
           calorieLimit := some (pyInt (protein * 4 + fat * 9 + carbs * 4)),
           fiberLimit := fiberColumnUpdate fiber r.fiberLimit }

/-- The store after a successful `set_macros_limits` commit. -/
def macrosStore (st : Store) (uid : ℤ) (protein fat carbs : ℚ)
    (fiber : Option ℚ) : Store :=
  { st with users :=
      updateFirst (fun r => r.id = uid) (macrosRow protein fat carbs fiber) st.users }

/-! Concrete fixtures:

A Moscow-timezone user (id 1) whose row exists in the store, and sample
entries, used by witnesses and counterexamples. -/

/-- A fresh `users` row for user 1 (as created on first interaction). -/
def userRow1 : UserRow :=
  { id := 1, timezoneCode := "МСК", calorieLimit := none,
    proteinLimit := none, fatLimit := none, carbsLimit := none,
    fiberLimit := none, userWeight := none, bodyFatPercentage := none }

/-- User 1 with an empty diary; the clock reads day 100, 01:00 Moscow time
(which is day 99, 22:00 UTC). -/
def baseState : SysState :=
  { user := initialUserData 1,
    store := { users := [userRow1], entries := [], nextId := 1 },
    now := 100 * 86400 + 3600 - 10800 }

/-- A food entry recorded by user 1 at day 100, 01:00 Moscow time: the
stored instant is `100 * 86400 + 3600 - 10800`, i.e. day 99, 22:00 UTC. -/
def entryAtLocalNight : FoodEntry :=
  { id := 1, userId := 1, foodName := "каша", calories := 300, protein := 9,
    fat := 5, carbs := 55, fiber := 4, sugar := 8, sodium := 150,
    cholesterol := 0, timestamp := 100 * 86400 + 3600 - 10800 }

/-- State `baseState` after that entry has been recorded. -/
def nightState : SysState :=
  { user := initialUserData 1,
    store := { users := [userRow1], entries := [entryAtLocalNight], nextId := 2 },
    now := 100 * 86400 + 3600 - 10800 }

/-- Breakfast entry of user 1, recorded inside the UTC window of day 100. -/
def entryMorning : FoodEntry :=
  { id := 1, userId := 1, foodName := "омлет", calories := 220, protein := 14,
    fat := 16, carbs := 3, fiber := 0, sugar := 1, sodium := 300,
    cholesterol := 370, timestamp := 100 * 86400 + 10000 }

/-- Later lunch entry of user 1, same day window, newer timestamp. -/
def entryLunch : FoodEntry :=
  { id := 2, userId := 1, foodName := "плов", calories := 650, protein := 25,
    fat := 28, carbs := 75, fiber := 3, sugar := 4, sodium := 900,
    cholesterol := 60, timestamp := 100 * 86400 + 50000 }

/-- User 1 with both entries recorded, during the afternoon of day 100. -/
def dayState : SysState :=
  { user := initialUserData 1,
    store := { users := [userRow1], entries := [entryMorning, entryLunch], nextId := 3 },
    now := 100 * 86400 + 60000 }

/-- A pending vision-analysis result. -/
def analysisSoup : Analysis :=
  { foodName := "суп", calories := 180, protein := 7, fat := 6, carbs := 22,
    fiber := 2, sugar := 3, sodium := 600, cholesterol := 15 }

/-- FSM context right after the analysis was presented: waiting for the
confirm button, with the analysis stored. -/
def confirmingConv : ConvState :=
  { fsm := some FSMState.waitingForConfirmation, analysis := some analysisSoup }

/-! General lemmas about the embedded operations. -/

theorem round1_zero : round1 0 = 0 := by
  simp [round1]

theorem round1_hundred : round1 100 = 100 := by
  norm_num [round1]

theorem round1_mono {x y : ℚ} (h : x ≤ y) : round1 x ≤ round1 y := by
  unfold round1
  have h1 : round (10 * x) ≤ round (10 * y) := by
    rw [round_eq, round_eq]
    exact Int.floor_le_floor (by linarith)
  have h2 : ((round (10 * x) : ℤ) : ℚ) ≤ ((round (10 * y) : ℤ) : ℚ) := by
    exact_mod_cast h1
  linarith

/-- Rounding to one decimal commutes with clamping at 100. -/
theorem round1_min_hundred (x : ℚ) : round1 (min 100 x) = min 100 (round1 x) := by
  rcases le_total x 100 with h | h
  · rw [min_eq_right h, min_eq_right]
    calc round1 x ≤ round1 100 := round1_mono h
    _ = 100 := round1_hundred
  · rw [min_eq_left h, min_eq_left, round1_hundred]
    calc (100 : ℚ) = round1 100 := round1_hundred.symm
    _ ≤ round1 x := round1_mono h

/-- The rounded code percentage equals the specification's percentage
formula, limit by limit. -/
theorem round1_limitPct_eq_spec (consumed : ℚ) (limit : Option ℚ) :
    round1 (limitPct consumed limit) = specLimitPct consumed limit := by
  match limit with
  | none => simp [limitPct, specLimitPct, round1_zero]
  | some l =>
      simp only [limitPct, specLimitPct]
      by_cases hl : 0 < l
      · rw [if_pos ⟨ne_of_gt hl, hl⟩, if_pos hl, round1_min_hundred]
      · rw [if_neg (by tauto), if_neg hl, round1_zero]

theorem mem_insertByTimestampDesc {a e : FoodEntry} {l : List FoodEntry} :
    a ∈ insertByTimestampDesc e l ↔ a = e ∨ a ∈ l := by
  induction l with
  | nil => simp [insertByTimestampDesc]
  | cons x xs ih =>
      simp only [insertByTimestampDesc]
      split
      · rw [List.mem_cons, ih, List.mem_cons]
        tauto
      · simp only [List.mem_cons]

theorem mem_sortByTimestampDesc {a : FoodEntry} {l : List FoodEntry} :
    a ∈ sortByTimestampDesc l ↔ a ∈ l := by
  induction l with
  | nil => simp [sortByTimestampDesc]
  | cons x xs ih =>
      simp only [sortByTimestampDesc, List.foldr] at ih ⊢
      rw [mem_insertByTimestampDesc, ih, List.mem_cons]

theorem length_insertByTimestampDesc (e : FoodEntry) (l : List FoodEntry) :
    (insertByTimestampDesc e l).length = l.length + 1 := by
  induction l with
  | nil => simp [insertByTimestampDesc]
  | cons x xs ih =>
      simp only [insertByTimestampDesc]
      split <;> simp [ih]

theorem length_sortByTimestampDesc (l : List FoodEntry) :
    (sortByTimestampDesc l).length = l.length := by
  induction l with
  | nil => rfl
  | cons x xs ih =>
      simp only [sortByTimestampDesc, List.foldr] at ih ⊢
      rw [length_insertByTimestampDesc, ih, List.length_cons]

theorem updateFirst_length (p : α → Bool) (f : α → α) (l : List α) :
    (updateFirst p f l).length = l.length := by
  induction l with
  | nil => rfl
  | cons x xs ih =>
      simp only [updateFirst]
      split <;> simp [ih]

/-- Looking a row up again after `updateFirst` with the same key predicate
finds the updated row, provided the update preserves the key. -/
theorem find?_updateFirst (p : α → Bool) (f : α → α) (l : List α)
    (hpres : ∀ x, p x = true → p (f x) = true) :
    (updateFirst p f l).find? p = (l.find? p).map f := by
  induction l with
  | nil => rfl
  | cons x xs ih =>
      by_cases hx : p x = true
      · simp [updateFirst, hx, List.find?, hpres x hx]
      · have hx' : p x = false := by simpa using hx
        simp [updateFirst, hx', List.find?, ih]

/-- Removing the first match with `eraseP` when the predicate identifies a
unique element of a duplicate-free list: the element disappears, all others
survive, and the length drops by one. -/
theorem eraseP_unique {p : α → Bool} {l : List α} {a : α}
    (hnd : l.Nodup) (ha : a ∈ l) (hpa : p a = true)
    (huniq : ∀ x ∈ l, p x = true → x = a) :
    a ∉ l.eraseP p ∧ (∀ x ∈ l, x ≠ a → x ∈ l.eraseP p) ∧
      (l.eraseP p).length + 1 = l.length := by
  induction l with
  | nil => cases ha
  | cons y ys ih =>
      rcases List.mem_cons.1 ha with rfl | hmem
      · rw [List.eraseP_cons, hpa]
        refine ⟨(List.nodup_cons.1 hnd).1, ?_, rfl⟩
        intro x hx hne
        rcases List.mem_cons.1 hx with rfl | h
        · exact absurd rfl hne
        · exact h
      · have hynotin : y ∉ ys := (List.nodup_cons.1 hnd).1
        have hya : y ≠ a := fun h => hynotin (h ▸ hmem)
        have hy : p y = false := by
          by_cases h : p y = true
          · exact absurd (huniq y (List.mem_cons_self y ys) h) hya
          · simpa using h
        have ih' := ih (List.nodup_cons.1 hnd).2 hmem
          (fun x hx hpx => huniq x (List.mem_cons_of_mem y hx) hpx)
        rw [List.eraseP_cons, hy]
        refine ⟨?_, ?_, ?_⟩
        · intro h
          rcases List.mem_cons.1 h with h | h
          · exact hya h.symm
          · exact ih'.1 h
        · intro x hx hne
          rcases List.mem_cons.1 hx with rfl | h
          · exact List.mem_cons_self x _
          · exact List.mem_cons_of_mem y (ih'.2.1 x h hne)
        · simpa using ih'.2.2

/-! The claims. -/

/-- C1.  The timezone bucketing law fails: the query window both date
queries build is the raw UTC calendar day of the target date, for every
timezone offset — `astimezone` does not move the constructed UTC midnight to
local midnight.  Concretely, the fixture entry recorded at 01:00 Moscow
local time of day 100 (projected local date 100) is missing from
`get_entries_by_date` for day 100 and is returned for day 99 instead. -/
theorem get_entries_by_date_buckets_by_utc_day :
    (∀ off d : ℤ, dayWindow off d = (d * 86400, d * 86400 + 86399)) ∧
      localDate (timezoneOffset "МСК") entryAtLocalNight.timestamp = 100 ∧
      entryAtLocalNight ∉ get_entries_by_date nightState 100 ∧
      entryAtLocalNight ∈ get_entries_by_date nightState 99 := by
  refine ⟨?_, by decide, by decide, by decide⟩
  intro off d
  simp only [dayWindow, utcMidnight, PyDatetime.astimezone, PyDatetime.addSeconds,
    PyDatetime.instant, Prod.mk.injEq]
  omega

/-- C5.  `generate_calorie_progress_bar` clamps: for every percentage at or
above 100 the bar is the over-limit glyph repeated over the full width with
no empty cells; below 85 the fill glyph is the on-track one, and from 85 up
to (excluding) 100 the near-limit one. -/
theorem generate_calorie_progress_bar_clamps (p : ℚ) :
    (100 ≤ p →
      calorieFilledChars p 10 = 10 ∧ calorieBarChar p = '🟥' ∧
        generate_calorie_progress_bar p 10 =
          repChar '🟥' 10 ++ " " ++ intStr (pyInt p) ++ "%") ∧
      (p < 85 → calorieBarChar p = '🟩') ∧
      (85 ≤ p → p < 100 → calorieBarChar p = '🟨') := by
  refine ⟨?_, ?_, ?_⟩
  · intro hp
    have hchar : calorieBarChar p = '🟥' := by
      rw [calorieBarChar, if_neg (by linarith), if_neg (by linarith)]
    have hfill : calorieFilledChars p 10 = 10 := by
      have hpos : (0 : ℚ) ≤ p := by linarith
      have h0 : (0 : ℚ) ≤ p / 100 * ((10 : ℕ) : ℚ) := by positivity
      have h10 : (10 : ℤ) ≤ pyInt (p / 100 * ((10 : ℕ) : ℚ)) := by
        rw [pyInt, if_pos h0, Int.le_floor]
        push_cast
        linarith
      rw [calorieFilledChars]
      omega
    refine ⟨hfill, hchar, ?_⟩
    rw [generate_calorie_progress_bar, hfill, hchar]
    norm_num [repChar]
    rfl
  · intro hp
    rw [calorieBarChar, if_pos hp]
  · intro h85 h100
    rw [calorieBarChar, if_neg (by linarith), if_pos h100]

/-- C5 witness: the three bands at 150, 50 and 90 percent. -/
theorem generate_calorie_progress_bar_clamps_witness :
    ((100 : ℚ) ≤ 150 ∧ generate_calorie_progress_bar 150 10 =
        repChar '🟥' 10 ++ " " ++ intStr (pyInt 150) ++ "%") ∧
      ((50 : ℚ) < 85 ∧ calorieBarChar 50 = '🟩') ∧
      ((85 : ℚ) ≤ 90 ∧ (90 : ℚ) < 100 ∧ calorieBarChar 90 = '🟨') :=
  ⟨⟨by norm_num, ((generate_calorie_progress_bar_clamps 150).1 (by norm_num)).2.2⟩,
   ⟨by norm_num, (generate_calorie_progress_bar_clamps 50).2.1 (by norm_num)⟩,
   ⟨by norm_num, by norm_num,
    (generate_calorie_progress_bar_clamps 90).2.2 (by norm_num) (by norm_num)⟩⟩

theorem pyInt_nonneg {x : ℚ} (h : 0 ≤ x) : 0 ≤ pyInt x := by
  rw [pyInt, if_pos h]
  exact Int.floor_nonneg.2 h

/-- C6.  When no fiber target is configured (`None` or non-positive),
`generate_nutrient_progress_bar` substitutes the documented fallback target
25 — the value actually divided by is 25, not zero — and produces the same
well-formed ten-cell bar as an explicit target of 25. -/
theorem generate_nutrient_progress_bar_fiber_fallback (v : ℚ) (hv : 0 ≤ v)
    (t : Option ℚ) (ht : targetNeedsFallback t = true) :
    resolveTarget t "fiber" = some 25 ∧
      nutrientTargetValue (resolveTarget t "fiber") = 25 ∧
      generate_nutrient_progress_bar v t "fiber" 10 =
        generate_nutrient_progress_bar v (some 25) "fiber" 10 ∧
      ∃ f : ℤ, 0 ≤ f ∧ f ≤ 10 ∧
        generate_nutrient_progress_bar v t "fiber" 10 =
          repChar '🟢' f ++ repChar '⬜' (10 - f) ++ " " ++
            intStr (nutrientPercentage v 25) ++ "%" := by
  have hres : resolveTarget t "fiber" = some 25 := by
    rw [resolveTarget, if_pos ht, if_neg (by decide), if_neg (by decide),
      if_neg (by decide), if_pos rfl]
  have hres25 : resolveTarget (some 25) "fiber" = some 25 := by
    rw [resolveTarget, if_neg (by decide)]
  have htv : nutrientTargetValue (resolveTarget t "fiber") = 25 := by
    rw [hres, nutrientTargetValue, if_pos (by decide)]
    rfl
  have hpct0 : 0 ≤ nutrientPercentage v 25 := by
    rw [nutrientPercentage, if_pos (by norm_num)]
    have : 0 ≤ pyInt (v / 25 * 100) := pyInt_nonneg (by positivity)
    omega
  have hpct100 : nutrientPercentage v 25 ≤ 100 := by
    rw [nutrientPercentage, if_pos (by norm_num)]
    omega
  refine ⟨hres, htv, ?_, ?_⟩
  · rw [generate_nutrient_progress_bar, generate_nutrient_progress_bar, hres, hres25]
  · refine ⟨min (pyInt ((nutrientPercentage v 25 : ℚ) / 100 * ((10 : ℕ) : ℚ))) 10,
      ?_, ?_, ?_⟩
    · have : (0 : ℚ) ≤ (nutrientPercentage v 25 : ℚ) / 100 * ((10 : ℕ) : ℚ) := by
        have : (0 : ℚ) ≤ (nutrientPercentage v 25 : ℚ) := by exact_mod_cast hpct0
        positivity
      have := pyInt_nonneg this
      omega
    · omega
    · have htv25 : nutrientTargetValue (some 25) = 25 := by
        rw [nutrientTargetValue, if_pos (by decide)]
        rfl
      rw [generate_nutrient_progress_bar, hres, htv25]
      have hbar : nutrientBarChar "fiber" = '🟢' := by
        rw [nutrientBarChar, if_neg (by decide), if_neg (by decide),
          if_neg (by decide), if_pos rfl]
      rw [hbar]
      norm_num

/-- C6 witness: fiber with no configured target and 10 g consumed. -/
theorem generate_nutrient_progress_bar_fiber_fallback_witness :
    (0 : ℚ) ≤ 10 ∧ targetNeedsFallback none = true ∧
      resolveTarget none "fiber" = some 25 ∧
      generate_nutrient_progress_bar 10 none "fiber" 10 =
        generate_nutrient_progress_bar 10 (some 25) "fiber" 10 := by
  have h := generate_nutrient_progress_bar_fiber_fallback 10 (by norm_num) none rfl
  exact ⟨by norm_num, rfl, h.1, h.2.2.1⟩

/-- C4.  Every percentage field of `get_stats_by_date` agrees with the
specification formula `min(100, round(sum_X / limit_X * 100, 1))` on a set
positive limit, and is 0 on an absent or non-positive limit, for the daily
sums the query computes. -/
theorem get_stats_by_date_percentages_match_spec (s : SysState) (d : ℤ) :
    (get_stats_by_date s d).caloriePercentage =
        specLimitPct (sumBy (fun e => e.calories) (entriesInWindow s d))
          (s.user.calorieLimit.map (fun n => (n : ℚ))) ∧
      (get_stats_by_date s d).proteinPercentage =
        specLimitPct (sumBy (fun e => e.protein) (entriesInWindow s d)) s.user.proteinLimit ∧
      (get_stats_by_date s d).fatPercentage =
        specLimitPct (sumBy (fun e => e.fat) (entriesInWindow s d)) s.user.fatLimit ∧
      (get_stats_by_date s d).carbsPercentage =
        specLimitPct (sumBy (fun e => e.carbs) (entriesInWindow s d)) s.user.carbsLimit ∧
      (get_stats_by_date s d).fiberPercentage =
        specLimitPct (sumBy (fun e => e.fiber) (entriesInWindow s d)) s.user.fiberLimit ∧
      (get_stats_by_date s d).sugarPercentage =
        specLimitPct (sumBy (fun e => e.sugar) (entriesInWindow s d)) s.user.sugarLimit ∧
      (get_stats_by_date s d).sodiumPercentage =
        specLimitPct (sumBy (fun e => e.sodium) (entriesInWindow s d)) s.user.sodiumLimit ∧
      (get_stats_by_date s d).cholesterolPercentage =
        specLimitPct (sumBy (fun e => e.cholesterol) (entriesInWindow s d))
          s.user.cholesterolLimit := by
  simp only [get_stats_by_date]
  exact ⟨round1_limitPct_eq_spec _ _, round1_limitPct_eq_spec _ _,
    round1_limitPct_eq_spec _ _, round1_limitPct_eq_spec _ _,
    round1_limitPct_eq_spec _ _, round1_limitPct_eq_spec _ _,
    round1_limitPct_eq_spec _ _, round1_limitPct_eq_spec _ _⟩

/-- Full description of a successful `set_macros_limits` call (the guard
passes and the user's row exists). -/
theorem set_macros_limits_success (s : SysState) (protein fat carbs : ℚ)
    (fiber sugar sodium cholesterol : Option ℚ)
    (hp : 0 < protein) (hf : 0 < fat) (hc : 0 < carbs) (r0 : UserRow)
    (hrow : s.store.users.find? (fun r => r.id = s.user.userId) = some r0) :
    set_macros_limits s protein fat carbs fiber sugar sodium cholesterol =
      (true,
        { user := macrosUser s.user protein fat carbs fiber sugar sodium cholesterol,
          store := macrosStore s.store s.user.userId protein fat carbs fiber,
          now := s.now }) := by
  rw [set_macros_limits]
  rw [if_neg (by push_neg; exact ⟨hp, hf, hc⟩)]
  simp only [hrow, macrosUser, macrosRow, macrosStore]
  rfl

/-- C2 (amended).  For positive protein, fat and carbs (and an existing user
row), `set_macros_limits` succeeds and sets `calorie_limit` to the
*truncation towards zero* (`int(...)`, which is the floor of the positive
formula value) of `protein*4 + fat*9 + carbs*4` — not the nearest
integer. -/
theorem set_macros_limits_calorie_truncation (s : SysState)
    (protein fat carbs : ℚ) (fiber sugar sodium cholesterol : Option ℚ)
    (hp : 0 < protein) (hf : 0 < fat) (hc : 0 < carbs)
    (hrow : (s.store.users.find? (fun r => r.id = s.user.userId)).isSome = true) :
    (set_macros_limits s protein fat carbs fiber sugar sodium cholesterol).1 = true ∧
      (set_macros_limits s protein fat carbs fiber sugar sodium cholesterol).2.user.calorieLimit =
        some (pyInt (protein * 4 + fat * 9 + carbs * 4)) ∧
      pyInt (protein * 4 + fat * 9 + carbs * 4) =
        ⌊protein * 4 + fat * 9 + carbs * 4⌋ := by
  obtain ⟨r0, hr0⟩ := Option.isSome_iff_exists.1 hrow
  rw [set_macros_limits_success s protein fat carbs fiber sugar sodium cholesterol
    hp hf hc r0 hr0]
  refine ⟨rfl, rfl, ?_⟩
  rw [pyInt, if_pos (by positivity)]

/-- C2 witness: protein 2, fat 3, carbs 4 on the fixture user give
`calorie_limit = int(2*4 + 3*9 + 4*4) = 51`. -/
theorem set_macros_limits_calorie_truncation_witness :
    (0 : ℚ) < 2 ∧ (0 : ℚ) < 3 ∧ (0 : ℚ) < 4 ∧
      (baseState.store.users.find?
        (fun r => r.id = baseState.user.userId)).isSome = true ∧
      (set_macros_limits baseState 2 3 4 none none none none).1 = true ∧
      (set_macros_limits baseState 2 3 4 none none none none).2.user.calorieLimit =
        some (pyInt ((2 : ℚ) * 4 + 3 * 9 + 4 * 4)) := by
  have h := set_macros_limits_calorie_truncation baseState 2 3 4 none none none none
    (by norm_num) (by norm_num) (by norm_num) (by decide)
  exact ⟨by norm_num, by norm_num, by norm_num, by decide, h.1, h.2.1⟩

/-- C2 counterexample: at protein 1, fat 1, carbs 1.2 the formula value is
17.8; the nearest integer is 18 but the stored `calorie_limit` is 17, so the
claimed `round` law fails. -/
theorem set_macros_limits_calorie_not_round :
    (set_macros_limits baseState 1 1 (6 / 5) none none none none).1 = true ∧
      (set_macros_limits baseState 1 1 (6 / 5) none none none none).2.user.calorieLimit =
        some 17 ∧
      round ((1 : ℚ) * 4 + 1 * 9 + (6 / 5) * 4) = 18 ∧
      (set_macros_limits baseState 1 1 (6 / 5) none none none none).2.user.calorieLimit ≠
        some (round ((1 : ℚ) * 4 + 1 * 9 + (6 / 5) * 4)) := by
  have h := set_macros_limits_success baseState 1 1 (6 / 5) none none none none
    (by norm_num) (by norm_num) (by norm_num) userRow1 (by decide)
  rw [h]
  have hval : pyInt ((1 : ℚ) * 4 + 1 * 9 + (6 / 5) * 4) = 17 := by
    rw [pyInt, if_pos (by norm_num)]
    norm_num
  have hround : round ((1 : ℚ) * 4 + 1 * 9 + (6 / 5) * 4) = 18 := by
    rw [round_eq]
    norm_num
  refine ⟨rfl, ?_, hround, ?_⟩
  · simp only [macrosUser]
    rw [hval]
  · simp only [macrosUser]
    rw [hval, hround]
    simp

/-- C3 (amended).  When the store commits, `add_food_entry` durably appends
the returned record (with the store-assigned id); when the store fails, it
does *not* raise: it leaves the store untouched and still returns a
hand-built record dictionary with id 0. -/
theorem add_food_entry_fault_swallowed (s : SysState) (foodName : String)
    (calories protein fat carbs fiber sugar sodium cholesterol : ℚ) :
    ((add_food_entry s true foodName calories protein fat carbs fiber sugar
        sodium cholesterol).1.store.entries =
      s.store.entries ++
        [(add_food_entry s true foodName calories protein fat carbs fiber sugar
          sodium cholesterol).2] ∧
      (add_food_entry s true foodName calories protein fat carbs fiber sugar
        sodium cholesterol).2 ∈
        (add_food_entry s true foodName calories protein fat carbs fiber sugar
          sodium cholesterol).1.store.entries ∧
      (add_food_entry s true foodName calories protein fat carbs fiber sugar
        sodium cholesterol).2.id = s.store.nextId) ∧
      ((add_food_entry s false foodName calories protein fat carbs fiber sugar
          sodium cholesterol).1 = s ∧
        (add_food_entry s false foodName calories protein fat carbs fiber sugar
          sodium cholesterol).2.id = 0 ∧
        (add_food_entry s false foodName calories protein fat carbs fiber sugar
          sodium cholesterol).2.foodName = foodName ∧
        (add_food_entry s false foodName calories protein fat carbs fiber sugar
          sodium cholesterol).2.calories = calories) := by
  refine ⟨⟨?_, ?_, ?_⟩, ?_, ?_, ?_, ?_⟩ <;> simp [add_food_entry]

/-- C3 counterexample: with the store failing, `add_food_entry` returns a
full nutrition record (no exception propagates) although nothing was
persisted — the store is unchanged and the returned record is not in it. -/
theorem add_food_entry_fault_claims_success :
    (add_food_entry baseState false "борщ" 120 4 5 10 2 3 700 10).1 = baseState ∧
      (add_food_entry baseState false "борщ" 120 4 5 10 2 3 700 10).1.store.entries = [] ∧
      (add_food_entry baseState false "борщ" 120 4 5 10 2 3 700 10).2.foodName = "борщ" ∧
      (add_food_entry baseState false "борщ" 120 4 5 10 2 3 700 10).2.calories = 120 ∧
      (add_food_entry baseState false "борщ" 120 4 5 10 2 3 700 10).2 ∉
        (add_food_entry baseState false "борщ" 120 4 5 10 2 3 700 10).1.store.entries := by
  refine ⟨rfl, rfl, rfl, rfl, ?_⟩
  simp [add_food_entry, baseState]

theorem set_user_body_metrics_invalid (s : SysState) (weight bodyFat : ℚ)
    (h : weight ≤ 0 ∨ bodyFat < 0 ∨ 100 < bodyFat) :
    set_user_body_metrics s weight bodyFat = (false, s) := by
  rw [set_user_body_metrics, if_pos h]

/-- Full description of a successful `set_user_body_metrics` call: the
derived macro targets passed on to `set_macros_limits` are each rounded to
one decimal place. -/
theorem set_user_body_metrics_valid_spec (s : SysState) (weight bodyFat : ℚ)
    (hw : 0 < weight) (hb0 : 0 ≤ bodyFat) (hb1 : bodyFat ≤ 100)
    (hp : 0 < round1 (weight * (1 - bodyFat / 100) * 2))
    (hf : 0 < round1 (weight * 1)) (hc : 0 < round1 (weight * 3))
    (r0 : UserRow)
    (hrow : s.store.users.find? (fun r => r.id = s.user.userId) = some r0) :
    (set_user_body_metrics s weight bodyFat).1 = true ∧
      (set_user_body_metrics s weight bodyFat).2.user.userWeight = some weight ∧
      (set_user_body_metrics s weight bodyFat).2.user.bodyFatPercentage = some bodyFat ∧
      (set_user_body_metrics s weight bodyFat).2.user.proteinLimit =
        some (round1 (weight * (1 - bodyFat / 100) * 2)) ∧
      (set_user_body_metrics s weight bodyFat).2.user.fatLimit =
        some (round1 (weight * 1)) ∧
      (set_user_body_metrics s weight bodyFat).2.user.carbsLimit =
        some (round1 (weight * 3)) ∧
      (set_user_body_metrics s weight bodyFat).2.user.fiberLimit =
        some (round1 (weight * (3 / 10))) ∧
      (set_user_body_metrics s weight bodyFat).2.user.sugarLimit =
        some (round1 (weight * (1 / 2))) ∧
      (set_user_body_metrics s weight bodyFat).2.user.sodiumLimit =
        some (round1 (weight * 20)) ∧
      (set_user_body_metrics s weight bodyFat).2.user.cholesterolLimit =
        some (round1 (weight * 3)) := by
  have hm := set_macros_limits_success
    { s with user := bodyUser s.user weight bodyFat }
    (round1 (weight * (1 - bodyFat / 100) * 2)) (round1 (weight * 1))
    (round1 (weight * 3)) (some (round1 (weight * (3 / 10))))
    (some (round1 (weight * (1 / 2)))) (some (round1 (weight * 20)))
    (some (round1 (weight * 3))) hp hf hc r0 hrow
  have hpres : ∀ r : UserRow,
      (decide (r.id = s.user.userId)) = true →
      (decide ((macrosRow (round1 (weight * (1 - bodyFat / 100) * 2))
        (round1 (weight * 1)) (round1 (weight * 3))
        (some (round1 (weight * (3 / 10)))) r).id = s.user.userId)) = true := by
    intro r hr
    simpa [macrosRow] using hr
  rw [set_user_body_metrics, if_neg (by push_neg; exact ⟨hw, hb0, hb1⟩)]
  simp only [hm, macrosStore]
  simp only [show (bodyUser s.user weight bodyFat).userId = s.user.userId from rfl]
  rw [find?_updateFirst _ _ _ hpres, hrow]
  simp [macrosUser, bodyUser]

/-- C7 (amended).  `set_user_body_metrics` rejects `weight ≤ 0` and body fat
outside `[0,100]` without touching anything; on valid input (with the user
row present and the derived protein/fat/carbs targets still positive after
rounding) it derives lean body mass `weight * (1 - body_fat/100)` and hands
`set_macros_limits` the targets `2*LBM, 1*weight, 3*weight, 0.3*weight,
0.5*weight, 20*weight, 3*weight`, each first rounded to one decimal
place. -/
theorem set_user_body_metrics_validation_and_derivation
    (s : SysState) (weight bodyFat : ℚ) :
    ((weight ≤ 0 ∨ bodyFat < 0 ∨ 100 < bodyFat) →
      set_user_body_metrics s weight bodyFat = (false, s)) ∧
      (∀ r0 : UserRow, 0 < weight → 0 ≤ bodyFat → bodyFat ≤ 100 →
        0 < round1 (weight * (1 - bodyFat / 100) * 2) →
        0 < round1 (weight * 1) → 0 < round1 (weight * 3) →
        s.store.users.find? (fun r => r.id = s.user.userId) = some r0 →
        (set_user_body_metrics s weight bodyFat).1 = true ∧
          (set_user_body_metrics s weight bodyFat).2.user.userWeight = some weight ∧
          (set_user_body_metrics s weight bodyFat).2.user.bodyFatPercentage = some bodyFat ∧
          (set_user_body_metrics s weight bodyFat).2.user.proteinLimit =
            some (round1 (weight * (1 - bodyFat / 100) * 2)) ∧
          (set_user_body_metrics s weight bodyFat).2.user.fatLimit =
            some (round1 (weight * 1)) ∧
          (set_user_body_metrics s weight bodyFat).2.user.carbsLimit =
            some (round1 (weight * 3)) ∧
          (set_user_body_metrics s weight bodyFat).2.user.fiberLimit =
            some (round1 (weight * (3 / 10))) ∧
          (set_user_body_metrics s weight bodyFat).2.user.sugarLimit =
            some (round1 (weight * (1 / 2))) ∧
          (set_user_body_metrics s weight bodyFat).2.user.sodiumLimit =
            some (round1 (weight * 20)) ∧
          (set_user_body_metrics s weight bodyFat).2.user.cholesterolLimit =
            some (round1 (weight * 3))) :=
  ⟨fun h => set_user_body_metrics_invalid s weight bodyFat h,
   fun r0 hw hb0 hb1 hp hf hc hrow =>
     set_user_body_metrics_valid_spec s weight bodyFat hw hb0 hb1 hp hf hc r0 hrow⟩

/-- C7 witness: rejection at weight 0, and the derived targets for a 70 kg
user with 20 % body fat (protein `round1(112) = 112`,
sodium `round1(1400) = 1400`). -/
theorem set_user_body_metrics_validation_and_derivation_witness :
    set_user_body_metrics baseState 0 50 = (false, baseState) ∧
      (0 : ℚ) < 70 ∧ (0 : ℚ) ≤ 20 ∧ (20 : ℚ) ≤ 100 ∧
      (set_user_body_metrics baseState 70 20).1 = true ∧
      (set_user_body_metrics baseState 70 20).2.user.proteinLimit =
        some (round1 ((70 : ℚ) * (1 - 20 / 100) * 2)) ∧
      (set_user_body_metrics baseState 70 20).2.user.sodiumLimit =
        some (round1 ((70 : ℚ) * 20)) := by
  have h0 := (set_user_body_metrics_validation_and_derivation baseState 0 50).1
    (by norm_num)
  have hv := (set_user_body_metrics_validation_and_derivation baseState 70 20).2
    userRow1 (by norm_num) (by norm_num) (by norm_num)
    (by rw [round1, round_eq]; norm_num) (by rw [round1, round_eq]; norm_num)
    (by rw [round1, round_eq]; norm_num) (by decide)
  exact ⟨h0, by norm_num, by norm_num, by norm_num, hv.1, hv.2.2.2.1,
    hv.2.2.2.2.2.2.2.2.1⟩

/-- C7 counterexample: at weight 70.13 kg (body fat 0) the code sets
`carbs_limit = round1(3 * 70.13) = 210.4`, not the claimed exact
`3 * weight = 210.39` — the claim omits the one-decimal rounding. -/
theorem set_user_body_metrics_rounds_derived_targets :
    (set_user_body_metrics baseState (7013 / 100) 0).2.user.carbsLimit =
        some (2104 / 10) ∧
      (2104 / 10 : ℚ) ≠ 3 * (7013 / 100) ∧
      (set_user_body_metrics baseState (7013 / 100) 0).2.user.carbsLimit ≠
        some ((7013 / 100 : ℚ) * 3) := by
  have hv := set_user_body_metrics_valid_spec baseState (7013 / 100) 0
    (by norm_num) (by norm_num) (by norm_num)
    (by rw [round1, round_eq]; norm_num) (by rw [round1, round_eq]; norm_num)
    (by rw [round1, round_eq]; norm_num) userRow1 (by decide)
  have hcarbs := hv.2.2.2.2.2.1
  have hval : round1 ((7013 / 100 : ℚ) * 3) = 2104 / 10 := by
    rw [round1, round_eq]
    norm_num
  rw [hcarbs, hval]
  refine ⟨rfl, by norm_num, ?_⟩
  simp only [ne_eq, Option.some.injEq]
  norm_num

/-- C8.  `delete_entry_by_index` is consistent with the listing order: when
the stored ids are duplicate-free, an in-bounds index `i` deletes exactly
the record `get_entries_by_date` (newest first, today) shows at position
`i` — it returns true, that record is gone, every other record survives and
the count drops by one — while any out-of-bounds index (negative or past
the end) returns false and leaves the state untouched. -/
theorem delete_entry_by_index_matches_listing (s : SysState) (index : ℤ)
    (hnd : (s.store.entries.map FoodEntry.id).Nodup) :
    ((index < 0 ∨ ((get_entries_by_date s (get_current_date s)).length : ℤ) ≤ index) →
      delete_entry_by_index s index = (false, s)) ∧
      (∀ e : FoodEntry, 0 ≤ index →
        (get_entries_by_date s (get_current_date s)).get? index.toNat = some e →
        (delete_entry_by_index s index).1 = true ∧
          e ∉ (delete_entry_by_index s index).2.store.entries ∧
          (∀ x ∈ s.store.entries, x ≠ e →
            x ∈ (delete_entry_by_index s index).2.store.entries) ∧
          (delete_entry_by_index s index).2.store.entries.length + 1 =
            s.store.entries.length) := by
  constructor
  · intro h
    rw [delete_entry_by_index, dif_pos h]
  · intro e hidx hget
    have hlt : index.toNat < (get_entries_by_date s (get_current_date s)).length :=
      (List.get?_eq_some.1 hget).1
    have hoob : ¬(index < 0 ∨
        ((get_entries_by_date s (get_current_date s)).length : ℤ) ≤ index) := by
      omega
    have hgete : ∀ p : index.toNat < (get_entries_by_date s (get_current_date s)).length,
        (get_entries_by_date s (get_current_date s)).get ⟨index.toNat, p⟩ = e := by
      intro p
      have := List.get?_eq_get p
      rw [hget] at this
      exact Option.some.inj this.symm
    have hmem : e ∈ get_entries_by_date s (get_current_date s) := by
      rw [← hgete hlt]
      exact List.get_mem _ _ _
    have hmemw : e ∈ entriesInWindow s (get_current_date s) := by
      rw [get_entries_by_date] at hmem
      exact mem_sortByTimestampDesc.1 hmem
    have hmems : e ∈ s.store.entries ∧ e.userId = s.user.userId := by
      have h1 := (List.mem_filter).1 hmemw
      refine ⟨h1.1, ?_⟩
      have := of_decide_eq_true h1.2
      exact this.1
    have hq : (fun x => decide (x.id = e.id ∧ x.userId = s.user.userId)) e = true := by
      simp [hmems.2]
    have hfind : (s.store.entries.find?
        (fun x => decide (x.id = e.id ∧ x.userId = s.user.userId))).isSome := by
      rw [List.find?_isSome]
      exact ⟨e, hmems.1, hq⟩
    obtain ⟨w, hw⟩ := Option.isSome_iff_exists.1 hfind
    have herase := eraseP_unique (p := fun x =>
        decide (x.id = e.id ∧ x.userId = s.user.userId))
      (List.Nodup.of_map FoodEntry.id hnd) hmems.1 hq
      (fun x hx hpx => by
        have hx' := of_decide_eq_true hpx
        exact List.inj_on_of_nodup_map hnd hx hmems.1 hx'.1)
    have hrun : delete_entry_by_index s index =
        delete_entry s ((get_entries_by_date s (get_current_date s)).get
          ⟨index.toNat, hlt⟩).id := by
      rw [delete_entry_by_index, dif_neg hoob]
    rw [hrun, hgete hlt, delete_entry, hw]
    exact ⟨rfl, herase.1, herase.2.1, herase.2.2⟩

/-- C8 witness: in `dayState` the listing for today is `[плов, омлет]`
(newest first); index 0 deletes exactly the record listed first, and index 5
is rejected. -/
theorem delete_entry_by_index_matches_listing_witness :
    ((dayState.store.entries.map FoodEntry.id).Nodup ∧
      (get_entries_by_date dayState (get_current_date dayState)).get? 0 =
        some entryLunch ∧
      (delete_entry_by_index dayState 0).1 = true ∧
      entryLunch ∉ (delete_entry_by_index dayState 0).2.store.entries ∧
      (delete_entry_by_index dayState 0).2.store.entries.length + 1 =
        dayState.store.entries.length) ∧
      delete_entry_by_index dayState 5 = (false, dayState) := by
  have h := delete_entry_by_index_matches_listing dayState 0 (by decide)
  have h5 := (delete_entry_by_index_matches_listing dayState 5 (by decide)).1
    (by right; decide)
  have hin := h.2 entryLunch (by norm_num) (by decide)
  exact ⟨⟨by decide, by decide, hin.1, hin.2.1, hin.2.2.2⟩, h5⟩

theorem update_food_entry_length (s : SysState) (i : ℕ)
    (f su so ch : Option ℚ) :
    (update_food_entry s i f su so ch).2.store.entries.length =
      s.store.entries.length := by
  simp only [update_food_entry]
  rcases hfind : s.store.entries.find?
      (fun e => e.id = i ∧ e.userId = s.user.userId) with _ | w
  · rw [hfind]
  · rw [hfind]
    simp [updateFirst_length]

/-- C9.  Confirming is idempotent: from a state awaiting confirmation with a
pending analysis, the first `confirm` press inserts exactly one diary record
and clears the conversation; a second `confirm` press finds no
`waiting_for_confirmation` state (the handler's `StateFilter` does not
match), so it changes nothing — no duplicate insert. -/
theorem confirm_twice_inserts_once (conv : ConvState) (s : SysState)
    (a : Analysis)
    (hfsm : conv.fsm = some FSMState.waitingForConfirmation)
    (ha : conv.analysis = some a) :
    (confirm_event conv s true).2.store.entries.length =
        s.store.entries.length + 1 ∧
      (confirm_event conv s true).1 = ⟨none, none⟩ ∧
      confirm_event (confirm_event conv s true).1 (confirm_event conv s true).2
          true =
        ((confirm_event conv s true).1, (confirm_event conv s true).2) := by
  have h1 : confirm_event conv s true = process_confirmation conv s true := by
    rw [confirm_event, if_pos hfsm]
  have hlen : (process_confirmation conv s true).2.store.entries.length =
      s.store.entries.length + 1 := by
    simp only [process_confirmation, ha]
    by_cases hmicro : 0 < a.fiber ∨ 0 < a.sugar ∨ 0 < a.sodium ∨ 0 < a.cholesterol
    · rw [if_pos hmicro, update_food_entry_length]
      simp [add_food_entry]
    · rw [if_neg hmicro]
      simp [add_food_entry]
  have hconv : (process_confirmation conv s true).1 = ⟨none, none⟩ := by
    simp only [process_confirmation, ha]
  refine ⟨by rw [h1]; exact hlen, by rw [h1]; exact hconv, ?_⟩
  rw [h1, hconv, confirm_event, if_neg (by simp)]

/-- C9 witness: two consecutive confirm presses on the fixture conversation
insert exactly one record into the empty diary and the second press is a
no-op. -/
theorem confirm_twice_inserts_once_witness :
    confirmingConv.fsm = some FSMState.waitingForConfirmation ∧
      confirmingConv.analysis = some analysisSoup ∧
      (confirm_event confirmingConv baseState true).2.store.entries.length =
        baseState.store.entries.length + 1 ∧
      confirm_event (confirm_event confirmingConv baseState true).1
          (confirm_event confirmingConv baseState true).2 true =
        ((confirm_event confirmingConv baseState true).1,
          (confirm_event confirmingConv baseState true).2) := by
  have h := confirm_twice_inserts_once confirmingConv baseState analysisSoup rfl rfl
  exact ⟨rfl, rfl, h.1, h.2.2⟩

/-- C10.  `sugar_limit`, `sodium_limit` and `cholesterol_limit` exist only
on the in-memory object: after `set_macros_limits` records all three, a
profile re-created from the store (`load_from_db`) has them absent, while
the calorie, protein, fat, carbs and fiber limits written to the mapped
columns survive the reload. -/
theorem micro_limits_lost_on_reload (s : SysState)
    (protein fat carbs f su so ch : ℚ)
    (hp : 0 < protein) (hf : 0 < fat) (hc : 0 < carbs) (hfib : 0 < f)
    (r0 : UserRow)
    (hrow : s.store.users.find? (fun r => r.id = s.user.userId) = some r0) :
    (set_macros_limits s protein fat carbs (some f) (some su) (some so)
        (some ch)).2.user.sugarLimit = some su ∧
      (set_macros_limits s protein fat carbs (some f) (some su) (some so)
        (some ch)).2.user.sodiumLimit = some so ∧
      (set_macros_limits s protein fat carbs (some f) (some su) (some so)
        (some ch)).2.user.cholesterolLimit = some ch ∧
      (load_from_db s.user.userId
          (set_macros_limits s protein fat carbs (some f) (some su) (some so)
            (some ch)).2.store).1.sugarLimit = none ∧
      (load_from_db s.user.userId
          (set_macros_limits s protein fat carbs (some f) (some su) (some so)
            (some ch)).2.store).1.sodiumLimit = none ∧
      (load_from_db s.user.userId
          (set_macros_limits s protein fat carbs (some f) (some su) (some so)
            (some ch)).2.store).1.cholesterolLimit = none ∧
      (load_from_db s.user.userId
          (set_macros_limits s protein fat carbs (some f) (some su) (some so)
            (some ch)).2.store).1.calorieLimit =
        some (pyInt (protein * 4 + fat * 9 + carbs * 4)) ∧
      (load_from_db s.user.userId
          (set_macros_limits s protein fat carbs (some f) (some su) (some so)
            (some ch)).2.store).1.proteinLimit = some protein ∧
      (load_from_db s.user.userId
          (set_macros_limits s protein fat carbs (some f) (some su) (some so)
            (some ch)).2.store).1.fatLimit = some fat ∧
      (load_from_db s.user.userId
          (set_macros_limits s protein fat carbs (some f) (some su) (some so)
            (some ch)).2.store).1.carbsLimit = some carbs ∧
      (load_from_db s.user.userId
          (set_macros_limits s protein fat carbs (some f) (some su) (some so)
            (some ch)).2.store).1.fiberLimit = some f := by
  have hm := set_macros_limits_success s protein fat carbs (some f) (some su)
    (some so) (some ch) hp hf hc r0 hrow
  have hpres : ∀ r : UserRow,
      (decide (r.id = s.user.userId)) = true →
      (decide ((macrosRow protein fat carbs (some f) r).id = s.user.userId)) =
        true := by
    intro r hr
    simpa [macrosRow] using hr
  have hfind2 : (macrosStore s.store s.user.userId protein fat carbs
      (some f)).users.find? (fun r => r.id = s.user.userId) =
      some (macrosRow protein fat carbs (some f) r0) := by
    simp only [macrosStore]
    rw [find?_updateFirst _ _ _ hpres, hrow]
    rfl
  rw [hm]
  simp only [load_from_db, hfind2, macrosUser, macrosRow, fiberColumnUpdate]
  simp [hfib]

/-- C10 witness: concrete limits `(protein, fat, carbs, fiber, sugar,
sodium, cholesterol) = (120, 70, 300, 30, 35, 1400, 210)` on the fixture
user; after reload only the first four (plus the derived calorie limit)
remain. -/
theorem micro_limits_lost_on_reload_witness :
    (0 : ℚ) < 120 ∧ (0 : ℚ) < 70 ∧ (0 : ℚ) < 300 ∧ (0 : ℚ) < 30 ∧
      (set_macros_limits baseState 120 70 300 (some 30) (some 35) (some 1400)
        (some 210)).2.user.sugarLimit = some 35 ∧
      (load_from_db baseState.user.userId
          (set_macros_limits baseState 120 70 300 (some 30) (some 35)
            (some 1400) (some 210)).2.store).1.sugarLimit = none ∧
      (load_from_db baseState.user.userId
          (set_macros_limits baseState 120 70 300 (some 30) (some 35)
            (some 1400) (some 210)).2.store).1.proteinLimit = some 120 ∧
      (load_from_db baseState.user.userId
          (set_macros_limits baseState 120 70 300 (some 30) (some 35)
            (some 1400) (some 210)).2.store).1.fiberLimit = some 30 := by
  have h := micro_limits_lost_on_reload baseState 120 70 300 30 35 1400 210
    (by norm_num) (by norm_num) (by norm_num) (by norm_num) userRow1 (by decide)
  exact ⟨by norm_num, by norm_num, by norm_num, by norm_num, h.1,
    h.2.2.2.1, h.2.2.2.2.2.2.2.1, h.2.2.2.2.2.2.2.2.2.2⟩

/-- C3 witness: success assigns the store id; failure returns the state
unchanged with an id-0 record. -/
theorem add_food_entry_fault_swallowed_witness :
    (add_food_entry baseState true "чай" 2 0 0 0 0 0 0 0).2.id =
        baseState.store.nextId ∧
      (add_food_entry baseState false "чай" 2 0 0 0 0 0 0 0).1 = baseState ∧
      (add_food_entry baseState false "чай" 2 0 0 0 0 0 0 0).2.id = 0 := by
  have h := add_food_entry_fault_swallowed baseState "чай" 2 0 0 0 0 0 0 0
  exact ⟨h.1.2.2, h.2.1, h.2.2.1⟩

/-- C4 witness: the calorie percentage of the fixture day matches the
specification formula. -/
theorem get_stats_by_date_percentages_match_spec_witness :
    (get_stats_by_date nightState 99).caloriePercentage =
      specLimitPct (sumBy (fun e => e.calories) (entriesInWindow nightState 99))
        (nightState.user.calorieLimit.map (fun n => (n : ℚ))) :=
  (get_stats_by_date_percentages_match_spec nightState 99).1

end CaloriesBot
